import Mathlib

/-!
Shallow embedding of the authentication and token-lifecycle core of the
hw13_FastAPI repository: the `Auth` service (src/services/auth.py) and the
auth routes (src/routes/auth.py), together with a model of the User
Directory (src/repository/users.py, absent from the source tree) taken
from the specification's collaborator contract.

Conventions of the embedding:
- A JWT is modelled as either a signed payload (carrying the signing key
  and algorithm it was produced with) or an unparseable string.  Decoding
  with python-jose succeeds exactly when the key and algorithm match and
  the token is unexpired; claim keys may be absent from the payload, which
  in Python surfaces as a `KeyError` on subscript access.
- Time is an abstract natural-number clock passed explicitly; following
  the specification a token is expired when the clock strictly exceeds
  `exp`.
- An operation's observable failure is either a raised `HTTPException`
  (status code and detail string) or an unhandled Python exception that
  escapes the operation (`KeyError`, `AttributeError`), which the source's
  `except JWTError` handlers do not catch.
- The database is a list of user rows; mutating repository calls return
  the updated list.
-/

namespace HW13

/-- A JWT claims payload, viewed as a Python dict.  `sub` distinguishes
the key being absent (`none`, subscripting raises `KeyError`) from the key
being present with a null value (`some none`); `scope` distinguishes
absent from a present string value.  `iat` and `exp` are POSIX seconds. -/
structure Payload where
  sub : Option (Option String)
  scope : Option String
  iat : Nat
  exp : Nat
deriving Repr, DecidableEq

/-- A bearer-token string: either the encoding of a signed payload under a
key and algorithm, or a string that is not a well-formed JWT at all. -/
inductive Token where
  | signed (payload : Payload) (key : String) (alg : String)
  | malformed (s : String)
deriving Repr, DecidableEq

/-- The failure classes python-jose's `jwt.decode` reports (all subclasses
of `JWTError`): signature/format failure or expiry. -/
inductive JWTError where
  | badToken
  | expired
deriving Repr, DecidableEq

/-- Observable failure of an operation: a raised `HTTPException`, or an
unhandled Python exception escaping the request handler. -/
inductive Fail where
  | http (statusCode : Nat) (detail : String)
  | uncaught (exn : String)
deriving Repr, DecidableEq

/-- The configured signing secret (`settings.secret_key`). -/
def SECRET_KEY : String := "secret_key"

/-- The configured signing algorithm (`settings.algorithm`). -/
def ALGORITHM : String := "HS256"

/-- `jose.jwt.encode(claims, key, algorithm)`. -/
def jwtEncode (p : Payload) (key alg : String) : Token :=
  Token.signed p key alg

/-- `jose.jwt.decode(token, key, algorithms=[alg])`: fails on a malformed
token or a key/algorithm mismatch, then validates expiry (expired when the
current time strictly exceeds `exp`), else returns the claims. -/
def jwtDecode (tok : Token) (key alg : String) (now : Nat) : Except JWTError Payload :=
  match tok with
  | Token.malformed _ => Except.error JWTError.badToken
  | Token.signed p k a =>
    if k = key ∧ a = alg then
      if p.exp < now then Except.error JWTError.expired else Except.ok p
    else Except.error JWTError.badToken

/-- The scope string the source embeds in access tokens. -/
def accessScope : String := "access_token"

/-- The scope string the source embeds in refresh tokens. -/
def refreshScope : String := "refresh_token"

/-- The `data` dict the token-issuing functions receive; the routes always
pass a dict holding only the key `sub`. -/
structure TokenData where
  sub : Option (Option String)
deriving Repr, DecidableEq

namespace Auth

/-- `Auth.create_access_token`: copies `data`, sets `iat`, `exp`
(`expires_delta` seconds from now when that argument is truthy, i.e.
present and nonzero, else 60 minutes) and scope `access_token`, then signs
under the configured secret and algorithm. -/
def create_access_token (data : TokenData) (expires_delta : Option Nat) (now : Nat) : Token :=
  let expire : Nat :=
    match expires_delta with
    | some d => if d = 0 then now + 60 * 60 else now + d
    | none => now + 60 * 60
  jwtEncode { sub := data.sub, scope := some accessScope, iat := now, exp := expire }
    SECRET_KEY ALGORITHM

/-- `Auth.create_refresh_token`: same as access issuance but with default
lifetime 7 days and scope `refresh_token`. -/
def create_refresh_token (data : TokenData) (expires_delta : Option Nat) (now : Nat) : Token :=
  let expire : Nat :=
    match expires_delta with
    | some d => if d = 0 then now + 7 * 24 * 60 * 60 else now + d
    | none => now + 7 * 24 * 60 * 60
  jwtEncode { sub := data.sub, scope := some refreshScope, iat := now, exp := expire }
    SECRET_KEY ALGORITHM

/-- `Auth.create_email_token`: signs `data` with `iat` and a fixed 7-day
expiry; no scope claim is added. -/
def create_email_token (data : TokenData) (now : Nat) : Token :=
  jwtEncode { sub := data.sub, scope := none, iat := now, exp := now + 7 * 24 * 60 * 60 }
    SECRET_KEY ALGORITHM

/-- `Auth.decode_refresh_token`: decodes the token; any `JWTError` becomes
a 401 `Could not validate credentials`.  On a decoded payload,
`payload['scope']` raises an uncaught `KeyError` when the key is absent;
a scope other than `refresh_token` raises 401 `Invalid scope for token`
(an `HTTPException`, not caught by the `except JWTError` handler);
otherwise `payload['sub']` is returned (raising `KeyError` when absent). -/
def decode_refresh_token (refresh_token : Token) (now : Nat) : Except Fail (Option String) :=
  match jwtDecode refresh_token SECRET_KEY ALGORITHM now with
  | Except.error _ => Except.error (Fail.http 401 "Could not validate credentials")
  | Except.ok payload =>
    match payload.scope with
    | none => Except.error (Fail.uncaught "KeyError")
    | some s =>
      if s = refreshScope then
        match payload.sub with
        | none => Except.error (Fail.uncaught "KeyError")
        | some email => Except.ok email
      else Except.error (Fail.http 401 "Invalid scope for token")

/-- `Auth.get_email_from_token`: decodes the token; any `JWTError` becomes
a 422 `Invalid token for email verification`.  No scope check is made:
`payload['sub']` is returned directly (uncaught `KeyError` when absent). -/
def get_email_from_token (token : Token) (now : Nat) : Except Fail (Option String) :=
  match jwtDecode token SECRET_KEY ALGORITHM now with
  | Except.error _ => Except.error (Fail.http 422 "Invalid token for email verification")
  | Except.ok payload =>
    match payload.sub with
    | none => Except.error (Fail.uncaught "KeyError")
    | some email => Except.ok email

end Auth

/-- passlib's `CryptContext(schemes=['bcrypt'])`, an external library the
`Auth` class holds as `pwd_context`: its hash and verify operations are
abstract here, constrained by bcrypt's documented contract only where a
theorem needs it. -/
structure CryptContext where
  hash : String → String
  verify : String → String → Bool

namespace Auth

/-- `Auth.verify_password`: delegates to `pwd_context.verify`. -/
def verify_password (pwd_context : CryptContext) (plain_password hashed_password : String) :
    Bool :=
  pwd_context.verify plain_password hashed_password

/-- `Auth.get_password_hash`: delegates to `pwd_context.hash`. -/
def get_password_hash (pwd_context : CryptContext) (password : String) : String :=
  pwd_context.hash password

end Auth

/-- The signup schema's password constraint (src/schemas.py `UserModel`):
6 to 25 characters. -/
def validPassword (p : String) : Prop :=
  6 ≤ p.length ∧ p.length ≤ 25

instance (p : String) : Decidable (validPassword p) :=
  inferInstanceAs (Decidable (6 ≤ p.length ∧ p.length ≤ 25))

/-- An account row (`src/database/models.py` User).  `password` holds the
hashed credential; `refresh_token` is the nullable stored refresh token,
kept here as a `Token` because the JWT encoding of a claims set under a
fixed key and algorithm is deterministic and injective, so string equality
of encoded tokens coincides with equality of these values. -/
structure User where
  username : String
  email : String
  password : String
  confirmed : Bool
  refresh_token : Option Token
deriving Repr, DecidableEq

namespace repository_users

/-- Modelled from the spec: `src/repository/users.py` is not in the source
tree (only its unit tests and callers are).  The User Directory contract
gives lookup-by-email; over a row list this returns the first row whose
email equals the argument. -/
def get_user_by_email (email : String) (db : List User) : Option User :=
  db.find? (fun u => u.email == email)

/-- Modelled from the spec: `update_token(user, token, db)` of the missing
`src/repository/users.py` — `set_refresh_token(account, token_or_null)`
overwrites the stored refresh token of that account's row. -/
def update_token (user : User) (token : Option Token) (db : List User) : List User :=
  db.map (fun u => if u.email == user.email then { u with refresh_token := token } else u)

/-- Modelled from the spec: `confirmed_email(email, db)` of the missing
`src/repository/users.py` — `set_confirmed(email)` sets the confirmed
flag of the account with that email. -/
def confirmed_email (email : String) (db : List User) : List User :=
  db.map (fun u => if u.email == email then { u with confirmed := true } else u)

end repository_users

namespace Auth

/-- `Auth.get_current_user`: decodes the bearer token, catching `JWTError`
as the generic 401 `Could not validate credentials`.  Inside the `try`,
`payload['scope']` raises an uncaught `KeyError` when the key is absent; a
scope other than `access_token` raises the generic 401; with the access
scope, `payload['sub']` raises `KeyError` when absent and the generic 401
when null.  The verified subject is then resolved through the User
Directory; an unknown subject is again the generic 401. -/
def get_current_user (token : Token) (db : List User) (now : Nat) : Except Fail User :=
  let credentials_exception := Fail.http 401 "Could not validate credentials"
  match jwtDecode token SECRET_KEY ALGORITHM now with
  | Except.error _ => Except.error credentials_exception
  | Except.ok payload =>
    match payload.scope with
    | none => Except.error (Fail.uncaught "KeyError")
    | some s =>
      if s = accessScope then
        match payload.sub with
        | none => Except.error (Fail.uncaught "KeyError")
        | some none => Except.error credentials_exception
        | some (some email) =>
          match repository_users.get_user_by_email email db with
          | none => Except.error credentials_exception
          | some user => Except.ok user
      else Except.error credentials_exception

end Auth

/-- The token pair a successful login or refresh returns
(`TokenModel` of src/schemas.py; `token_type` is the constant `bearer`). -/
structure TokenModel where
  access_token : Token
  refresh_token : Token
deriving Repr, DecidableEq

namespace routes

/-- `login` (src/routes/auth.py): looks the account up by the submitted
username (an email); absent → 401 `Invalid email`; unconfirmed → 401
`Email not confirmed`; `verify_password` rejecting → 401 `Invalid
password`; else issues an access and a refresh token for the account's
email, persists the refresh token on the row and returns the pair.  The
credential check is the passlib bcrypt context, passed here as the
function `vp` (plain password, stored hash ↦ accepted). -/
def login (vp : String → String → Bool) (username password : String)
    (db : List User) (now : Nat) : Except Fail TokenModel × List User :=
  match repository_users.get_user_by_email username db with
  | none => (Except.error (Fail.http 401 "Invalid email"), db)
  | some user =>
    if !user.confirmed then
      (Except.error (Fail.http 401 "Email not confirmed"), db)
    else if !vp password user.password then
      (Except.error (Fail.http 401 "Invalid password"), db)
    else
      let access_token := Auth.create_access_token ⟨some (some user.email)⟩ none now
      let refresh_token := Auth.create_refresh_token ⟨some (some user.email)⟩ none now
      (Except.ok ⟨access_token, refresh_token⟩,
        repository_users.update_token user (some refresh_token) db)

/-- `confirmed_email` (src/routes/auth.py): redeems an email-confirmation
token.  A null decoded subject makes the directory lookup find nothing (no
row has a null email), giving 400 `Verification error`, as does an unknown
email; an already-confirmed account returns the no-op message; otherwise
the row is marked confirmed. -/
def confirmed_email (token : Token) (db : List User) (now : Nat) :
    Except Fail String × List User :=
  match Auth.get_email_from_token token now with
  | Except.error f => (Except.error f, db)
  | Except.ok none => (Except.error (Fail.http 400 "Verification error"), db)
  | Except.ok (some email) =>
    match repository_users.get_user_by_email email db with
    | none => (Except.error (Fail.http 400 "Verification error"), db)
    | some user =>
      if user.confirmed then (Except.ok "Your email is already confirmed", db)
      else (Except.ok "Email confirmed", repository_users.confirmed_email email db)

/-- `request_email` (src/routes/auth.py): the source reads
`user.confirmed` before its `if user:` None-check, so an email matching no
account raises an uncaught `AttributeError` on `None`; a confirmed account
gets the no-op message, an unconfirmed one the confirmation-sent
message. -/
def request_email (email : String) (db : List User) : Except Fail String :=
  match repository_users.get_user_by_email email db with
  | none => Except.error (Fail.uncaught "AttributeError")
  | some user =>
    if user.confirmed then Except.ok "Your email is already confirmed"
    else Except.ok "Check your email for confirmation."

/-- `refresh_token` (src/routes/auth.py): decodes the presented refresh
token (propagating its failures), resolves the subject through the
directory — a null subject or a missing account leaves `user = None` and
the subsequent `user.refresh_token` attribute access raises an uncaught
`AttributeError` — then compares the stored refresh token with the
presented one by string equality: on mismatch the stored token is cleared
to null and 401 `Invalid refresh token` is raised; on match a fresh pair
is issued and the new refresh token is stored. -/
def refresh_token (token : Token) (db : List User) (now : Nat) :
    Except Fail TokenModel × List User :=
  match Auth.decode_refresh_token token now with
  | Except.error f => (Except.error f, db)
  | Except.ok none => (Except.error (Fail.uncaught "AttributeError"), db)
  | Except.ok (some email) =>
    match repository_users.get_user_by_email email db with
    | none => (Except.error (Fail.uncaught "AttributeError"), db)
    | some user =>
      if user.refresh_token ≠ some token then
        (Except.error (Fail.http 401 "Invalid refresh token"),
          repository_users.update_token user none db)
      else
        let access_token := Auth.create_access_token ⟨some (some email)⟩ none now
        let refresh_token := Auth.create_refresh_token ⟨some (some email)⟩ none now
        (Except.ok ⟨access_token, refresh_token⟩,
          repository_users.update_token user (some refresh_token) db)

end routes

/-! ### Supporting lemmas -/

/-- The expiry claim of a token (0 for an unparseable string). -/
def Token.expOf : Token → Nat
  | Token.signed p _ _ => p.exp
  | Token.malformed _ => 0

/-- Decoding under the same key and algorithm returns the signed claims
while the clock has not passed `exp`. -/
theorem jwtDecode_encode (p : Payload) (now : Nat) (h : now ≤ p.exp) :
    jwtDecode (jwtEncode p SECRET_KEY ALGORITHM) SECRET_KEY ALGORITHM now = Except.ok p := by
  simp only [jwtDecode, jwtEncode, and_self, if_true, Nat.not_lt_of_le h, if_neg, ite_true]
  simp [Nat.not_lt_of_le h]

/-- A found row's email field equals the email it was looked up by. -/
theorem get_user_by_email_eq (e : String) (db : List User) (u : User)
    (h : repository_users.get_user_by_email e db = some u) : u.email = e := by
  have hp := List.find?_some h
  simpa using hp

/-- Lookup commutes with mapping an email-preserving row transformation
over the directory. -/
theorem get_user_map (e : String) (u : User) (g : User → User) (db : List User)
    (hg : ∀ v, (g v).email = v.email)
    (h : repository_users.get_user_by_email e db = some u) :
    repository_users.get_user_by_email e (db.map g) = some (g u) := by
  induction db with
  | nil => simp [repository_users.get_user_by_email] at h
  | cons r rest ih =>
    unfold repository_users.get_user_by_email at h ⊢
    cases hr : (r.email == e) with
    | true =>
      rw [List.find?_cons_of_pos (p := fun (v : User) => v.email == e) _ hr] at h
      have hu : r = u := by injection h
      subst hu
      simp only [List.map_cons]
      exact List.find?_cons_of_pos _ (show ((g r).email == e) = true by rw [hg r]; exact hr)
    | false =>
      rw [List.find?_cons_of_neg (p := fun (v : User) => v.email == e) _ (by simp [hr])] at h
      simp only [List.map_cons]
      rw [List.find?_cons_of_neg (p := fun (v : User) => v.email == e) _ (by simp [hg r, hr])]
      exact ih h

/-- Overwriting a row's stored refresh token, then looking it up. -/
theorem get_user_update_token (e : String) (u : User) (tok : Option Token) (db : List User)
    (h : repository_users.get_user_by_email e db = some u) :
    repository_users.get_user_by_email e (repository_users.update_token u tok db) =
      some { u with refresh_token := tok } := by
  have hres := get_user_map e u
    (fun v => if v.email == u.email then { v with refresh_token := tok } else v) db
    (by intro v; by_cases hv : v.email == u.email <;> simp [hv]) h
  simpa [repository_users.update_token] using hres

/-- Marking a row confirmed, then looking it up. -/
theorem get_user_confirmed (e : String) (u : User) (db : List User)
    (h : repository_users.get_user_by_email e db = some u) :
    repository_users.get_user_by_email e (repository_users.confirmed_email e db) =
      some { u with confirmed := true } := by
  have hue : u.email = e := get_user_by_email_eq e db u h
  have hres := get_user_map e u
    (fun v => if v.email == e then { v with confirmed := true } else v) db
    (by intro v; by_cases hv : v.email == e <;> simp [hv]) h
  simpa [repository_users.confirmed_email, hue] using hres

/-- Inversion of decoding: success means the token was signed under the
queried key and algorithm with these claims and is unexpired. -/
theorem jwtDecode_ok (tok : Token) (key alg : String) (now : Nat) (p : Payload)
    (h : jwtDecode tok key alg now = Except.ok p) :
    tok = Token.signed p key alg ∧ now ≤ p.exp := by
  cases tok with
  | malformed s => simp [jwtDecode] at h
  | signed pl k a =>
    by_cases hka : k = key ∧ a = alg
    · obtain ⟨hk, ha⟩ := hka
      subst hk
      subst ha
      by_cases hexp : pl.exp < now
      · simp [jwtDecode, hexp] at h
      · simp only [jwtDecode, and_self, if_true, if_neg hexp, ite_true] at h
        injection h with h
        subst h
        exact ⟨rfl, Nat.le_of_not_lt hexp⟩
    · simp [jwtDecode, hka] at h

/-- Inversion of `decode_refresh_token`: an accepted token is validly
signed under the configured secret and algorithm, unexpired, carries the
`refresh_token` scope, and its subject is the returned email. -/
theorem decode_refresh_token_ok (tok : Token) (now : Nat) (e : Option String)
    (h : Auth.decode_refresh_token tok now = Except.ok e) :
    ∃ pl, tok = Token.signed pl SECRET_KEY ALGORITHM ∧ pl.scope = some refreshScope ∧
      pl.sub = some e ∧ now ≤ pl.exp := by
  unfold Auth.decode_refresh_token at h
  split at h
  · simp at h
  · rename_i pl hdec
    obtain ⟨htok, hexp⟩ := jwtDecode_ok _ _ _ _ _ hdec
    refine ⟨pl, htok, ?_⟩
    split at h
    · simp at h
    · rename_i s hscope
      split at h
      · rename_i hs
        split at h
        · simp at h
        · rename_i em hsub
          injection h with h
          subst h
          exact ⟨by rw [hscope, hs], hsub, hexp⟩
      · simp at h

/-- Inversion of `get_current_user`: an authorized request presented a
token validly signed under the configured secret and algorithm, unexpired,
carrying the `access_token` scope and a non-null subject that resolves to
the returned account. -/
theorem get_current_user_ok (tok : Token) (db : List User) (now : Nat) (u : User)
    (h : Auth.get_current_user tok db now = Except.ok u) :
    ∃ pl email, tok = Token.signed pl SECRET_KEY ALGORITHM ∧ pl.scope = some accessScope ∧
      pl.sub = some (some email) ∧ now ≤ pl.exp ∧
      repository_users.get_user_by_email email db = some u := by
  unfold Auth.get_current_user at h
  split at h
  · simp at h
  · rename_i pl hdec
    obtain ⟨htok, hexp⟩ := jwtDecode_ok _ _ _ _ _ hdec
    split at h
    · simp at h
    · rename_i s hscope
      split at h
      · rename_i hs
        split at h
        · simp at h
        · simp at h
        · rename_i email hsub
          split at h
          · simp at h
          · rename_i v hfind
            injection h with h
            subst h
            exact ⟨pl, email, htok, by rw [hscope, hs], hsub, hexp, hfind⟩
      · simp at h

/-- Shape of `create_access_token`: the submitted subject signed with the
access scope under the configured secret, expiring no earlier than
issuance. -/
theorem create_access_token_eq (data : TokenData) (d : Option Nat) (now : Nat) :
    ∃ e, Auth.create_access_token data d now =
        jwtEncode ⟨data.sub, some accessScope, now, e⟩ SECRET_KEY ALGORITHM ∧ now ≤ e := by
  cases d with
  | none => exact ⟨now + 60 * 60, rfl, Nat.le_add_right _ _⟩
  | some d =>
    by_cases hd : d = 0
    · subst hd
      exact ⟨now + 60 * 60, by simp [Auth.create_access_token], Nat.le_add_right _ _⟩
    · exact ⟨now + d, by simp [Auth.create_access_token, hd], Nat.le_add_right _ _⟩

/-- Shape of `create_refresh_token`: the submitted subject signed with the
refresh scope under the configured secret, expiring no earlier than
issuance. -/
theorem create_refresh_token_eq (data : TokenData) (d : Option Nat) (now : Nat) :
    ∃ e, Auth.create_refresh_token data d now =
        jwtEncode ⟨data.sub, some refreshScope, now, e⟩ SECRET_KEY ALGORITHM ∧ now ≤ e := by
  cases d with
  | none => exact ⟨now + 7 * 24 * 60 * 60, rfl, Nat.le_add_right _ _⟩
  | some d =>
    by_cases hd : d = 0
    · subst hd
      exact ⟨now + 7 * 24 * 60 * 60, by simp [Auth.create_refresh_token], Nat.le_add_right _ _⟩
    · exact ⟨now + d, by simp [Auth.create_refresh_token, hd], Nat.le_add_right _ _⟩

/-! ### Claim theorems -/

/-- C6: for every subject email and each scope, decoding a freshly issued,
unexpired token under the same secret and algorithm yields the original
subject, and the decoded scope is exactly the access scope for
`create_access_token` output and exactly the refresh scope for
`create_refresh_token` output. -/
theorem C6_round_trip (email : String) (d : Option Nat) (issued now : Nat)
    (hA : now ≤ Token.expOf (Auth.create_access_token ⟨some (some email)⟩ d issued))
    (hR : now ≤ Token.expOf (Auth.create_refresh_token ⟨some (some email)⟩ d issued)) :
    (∃ p, jwtDecode (Auth.create_access_token ⟨some (some email)⟩ d issued)
        SECRET_KEY ALGORITHM now = Except.ok p ∧
        p.sub = some (some email) ∧ p.scope = some accessScope) ∧
    (∃ p, jwtDecode (Auth.create_refresh_token ⟨some (some email)⟩ d issued)
        SECRET_KEY ALGORITHM now = Except.ok p ∧
        p.sub = some (some email) ∧ p.scope = some refreshScope) := by
  obtain ⟨e1, he1, -⟩ := create_access_token_eq ⟨some (some email)⟩ d issued
  obtain ⟨e2, he2, -⟩ := create_refresh_token_eq ⟨some (some email)⟩ d issued
  rw [he1] at hA ⊢
  rw [he2] at hR ⊢
  exact ⟨⟨_, jwtDecode_encode _ _ hA, rfl, rfl⟩, ⟨_, jwtDecode_encode _ _ hR, rfl, rfl⟩⟩

/-- Witness for C6 at a concrete subject, issuance time 0, decode time
100. -/
theorem C6_round_trip_witness :
    (∃ p, jwtDecode (Auth.create_access_token ⟨some (some "u@x.com")⟩ none 0)
        SECRET_KEY ALGORITHM 100 = Except.ok p ∧
        p.sub = some (some "u@x.com") ∧ p.scope = some accessScope) ∧
    (∃ p, jwtDecode (Auth.create_refresh_token ⟨some (some "u@x.com")⟩ none 0)
        SECRET_KEY ALGORITHM 100 = Except.ok p ∧
        p.sub = some (some "u@x.com") ∧ p.scope = some refreshScope) :=
  C6_round_trip "u@x.com" none 0 100 (by decide) (by decide)

/-- Evaluation of `decode_refresh_token` on a token validly signed under
the configured secret and algorithm and not yet expired. -/
theorem decode_refresh_token_signed (p : Payload) (now : Nat) (h : now ≤ p.exp) :
    Auth.decode_refresh_token (Token.signed p SECRET_KEY ALGORITHM) now =
      (match p.scope with
       | none => Except.error (Fail.uncaught "KeyError")
       | some s =>
         if s = refreshScope then
           (match p.sub with
            | none => Except.error (Fail.uncaught "KeyError")
            | some email => Except.ok email)
         else Except.error (Fail.http 401 "Invalid scope for token")) := by
  unfold Auth.decode_refresh_token
  rw [show jwtDecode (Token.signed p SECRET_KEY ALGORITHM) SECRET_KEY ALGORITHM now =
        Except.ok p from jwtDecode_encode p now h]

/-- C2 counterexample: an access-scoped token that has expired is rejected
by `decode_refresh_token` with the generic 401 `Could not validate
credentials`, not with the 401 `Invalid scope for token` the claim
requires for every access-scoped token. -/
theorem C2_counterexample :
    (Auth.decode_refresh_token (Auth.create_access_token ⟨some (some "u@x.com")⟩ none 0) 4000 =
      Except.error (Fail.http 401 "Could not validate credentials")) ∧
    (Auth.decode_refresh_token (Auth.create_access_token ⟨some (some "u@x.com")⟩ none 0) 4000 ≠
      Except.error (Fail.http 401 "Invalid scope for token")) := by
  refine ⟨rfl, ?_⟩
  intro h
  rw [show Auth.decode_refresh_token (Auth.create_access_token ⟨some (some "u@x.com")⟩ none 0)
        4000 = Except.error (Fail.http 401 "Could not validate credentials") from rfl] at h
  injection h with h
  injection h with h1 h2
  exact absurd h2 (by decide)

/-- C2 amended: an access-scoped token presented to `decode_refresh_token`
is never accepted and never yields a subject; when it is validly signed
under the configured secret and algorithm and unexpired the rejection is
the 401 `Invalid scope for token`, while a signature or expiry failure is
reported as the generic 401 instead. -/
theorem C2_access_token_never_refreshes (p : Payload) (k a : String) (now : Nat)
    (hscope : p.scope = some accessScope) :
    (∀ e, Auth.decode_refresh_token (Token.signed p k a) now ≠ Except.ok e) ∧
    (k = SECRET_KEY → a = ALGORITHM → now ≤ p.exp →
      Auth.decode_refresh_token (Token.signed p k a) now =
        Except.error (Fail.http 401 "Invalid scope for token")) := by
  constructor
  · intro e he
    obtain ⟨pl, htok, hsc, -, -⟩ := decode_refresh_token_ok _ _ _ he
    injection htok with hpl hk ha
    subst hpl
    rw [hscope] at hsc
    injection hsc with hsc
    exact absurd hsc (by decide)
  · intro hk ha hexp
    subst hk
    subst ha
    rw [decode_refresh_token_signed p now hexp, hscope]
    exact if_neg (by decide)

/-- C5: login fails with 401 `Invalid email` when no account has the
submitted email, with 401 `Email not confirmed` when the account exists
unconfirmed, with 401 `Invalid password` when the account is confirmed but
the Credential Hasher rejects the password, and otherwise succeeds with a
fresh access/refresh pair, persisting the refresh token on the account. -/
theorem C5_login (vp : String → String → Bool) (username password : String)
    (db : List User) (now : Nat) :
    (repository_users.get_user_by_email username db = none →
      routes.login vp username password db now =
        (Except.error (Fail.http 401 "Invalid email"), db)) ∧
    (∀ u, repository_users.get_user_by_email username db = some u → u.confirmed = false →
      routes.login vp username password db now =
        (Except.error (Fail.http 401 "Email not confirmed"), db)) ∧
    (∀ u, repository_users.get_user_by_email username db = some u → u.confirmed = true →
      vp password u.password = false →
      routes.login vp username password db now =
        (Except.error (Fail.http 401 "Invalid password"), db)) ∧
    (∀ u, repository_users.get_user_by_email username db = some u → u.confirmed = true →
      vp password u.password = true →
      routes.login vp username password db now =
        (Except.ok ⟨Auth.create_access_token ⟨some (some u.email)⟩ none now,
            Auth.create_refresh_token ⟨some (some u.email)⟩ none now⟩,
          repository_users.update_token u
            (some (Auth.create_refresh_token ⟨some (some u.email)⟩ none now)) db) ∧
      repository_users.get_user_by_email username
          (routes.login vp username password db now).2 =
        some { u with refresh_token := some (Auth.create_refresh_token ⟨some (some u.email)⟩ none now) }) := by
  refine ⟨?_, ?_, ?_, ?_⟩
  · intro h
    simp [routes.login, h]
  · intro u hu hc
    simp [routes.login, hu, hc]
  · intro u hu hc hv
    simp [routes.login, hu, hc, hv]
  · intro u hu hc hv
    have hlogin : routes.login vp username password db now =
        (Except.ok ⟨Auth.create_access_token ⟨some (some u.email)⟩ none now,
            Auth.create_refresh_token ⟨some (some u.email)⟩ none now⟩,
          repository_users.update_token u
            (some (Auth.create_refresh_token ⟨some (some u.email)⟩ none now)) db) := by
      simp [routes.login, hu, hc, hv]
    refine ⟨hlogin, ?_⟩
    rw [hlogin]
    exact get_user_update_token username u _ db hu

/-- Witness for C5: each login outcome realized on a concrete directory
with one confirmed and one unconfirmed account and a hasher that accepts
exactly the password equal to the stored value. -/
theorem C5_login_witness :
    (routes.login (fun p h => p == h) "nobody@x.com" "secret1"
        [⟨"alice", "a@x.com", "pw", true, none⟩] 0 =
      (Except.error (Fail.http 401 "Invalid email"),
        [⟨"alice", "a@x.com", "pw", true, none⟩])) ∧
    (routes.login (fun p h => p == h) "b@x.com" "pw" [⟨"bob", "b@x.com", "pw", false, none⟩] 0 =
      (Except.error (Fail.http 401 "Email not confirmed"),
        [⟨"bob", "b@x.com", "pw", false, none⟩])) ∧
    (routes.login (fun p h => p == h) "a@x.com" "wrong"
        [⟨"alice", "a@x.com", "pw", true, none⟩] 0 =
      (Except.error (Fail.http 401 "Invalid password"),
        [⟨"alice", "a@x.com", "pw", true, none⟩])) ∧
    (routes.login (fun p h => p == h) "a@x.com" "pw"
        [⟨"alice", "a@x.com", "pw", true, none⟩] 0 =
      (Except.ok ⟨Auth.create_access_token ⟨some (some "a@x.com")⟩ none 0,
          Auth.create_refresh_token ⟨some (some "a@x.com")⟩ none 0⟩,
        repository_users.update_token ⟨"alice", "a@x.com", "pw", true, none⟩
          (some (Auth.create_refresh_token ⟨some (some "a@x.com")⟩ none 0))
          [⟨"alice", "a@x.com", "pw", true, none⟩])) := by
  refine ⟨?_, ?_, ?_, ?_⟩
  · exact (C5_login (fun p h => p == h) "nobody@x.com" "secret1"
      [⟨"alice", "a@x.com", "pw", true, none⟩] 0).1 (by decide)
  · exact (C5_login (fun p h => p == h) "b@x.com" "pw"
      [⟨"bob", "b@x.com", "pw", false, none⟩] 0).2.1
      ⟨"bob", "b@x.com", "pw", false, none⟩ (by decide) rfl
  · exact (C5_login (fun p h => p == h) "a@x.com" "wrong"
      [⟨"alice", "a@x.com", "pw", true, none⟩] 0).2.2.1
      ⟨"alice", "a@x.com", "pw", true, none⟩ (by decide) rfl (by decide)
  · exact ((C5_login (fun p h => p == h) "a@x.com" "pw"
      [⟨"alice", "a@x.com", "pw", true, none⟩] 0).2.2.2
      ⟨"alice", "a@x.com", "pw", true, none⟩ (by decide) rfl (by decide)).1

/-- C10: the confirmed-flag check precedes password verification — for an
unconfirmed account, login reports `Email not confirmed` whatever the
password, and the outcome does not depend on the Credential Hasher at all
(the hasher is never invoked). -/
theorem C10_confirmed_check_precedes_password (vp1 vp2 : String → String → Bool)
    (username p1 p2 : String) (db : List User) (now : Nat) (u : User)
    (hu : repository_users.get_user_by_email username db = some u)
    (hc : u.confirmed = false) :
    routes.login vp1 username p1 db now =
      (Except.error (Fail.http 401 "Email not confirmed"), db) ∧
    routes.login vp1 username p1 db now = routes.login vp2 username p2 db now := by
  have h1 : routes.login vp1 username p1 db now =
      (Except.error (Fail.http 401 "Email not confirmed"), db) := by
    simp [routes.login, hu, hc]
  have h2 : routes.login vp2 username p2 db now =
      (Except.error (Fail.http 401 "Email not confirmed"), db) := by
    simp [routes.login, hu, hc]
  exact ⟨h1, h1.trans h2.symm⟩

/-- Witness for C10: an unconfirmed account, one hasher accepting
everything and one rejecting everything — same observable outcome. -/
theorem C10_confirmed_check_precedes_password_witness :
    routes.login (fun _ _ => true) "b@x.com" "right-pw"
        [⟨"bob", "b@x.com", "pw", false, none⟩] 0 =
      (Except.error (Fail.http 401 "Email not confirmed"),
        [⟨"bob", "b@x.com", "pw", false, none⟩]) ∧
    routes.login (fun _ _ => true) "b@x.com" "right-pw"
        [⟨"bob", "b@x.com", "pw", false, none⟩] 0 =
      routes.login (fun _ _ => false) "b@x.com" "wrong-pw"
        [⟨"bob", "b@x.com", "pw", false, none⟩] 0 :=
  C10_confirmed_check_precedes_password (fun _ _ => true) (fun _ _ => false)
    "b@x.com" "right-pw" "wrong-pw" [⟨"bob", "b@x.com", "pw", false, none⟩] 0
    ⟨"bob", "b@x.com", "pw", false, none⟩ (by decide) rfl

/-- Evaluation of `get_email_from_token` on a token validly signed under
the configured secret and algorithm and not yet expired. -/
theorem get_email_from_token_signed (p : Payload) (now : Nat) (h : now ≤ p.exp) :
    Auth.get_email_from_token (Token.signed p SECRET_KEY ALGORITHM) now =
      (match p.sub with
       | none => Except.error (Fail.uncaught "KeyError")
       | some email => Except.ok email) := by
  unfold Auth.get_email_from_token
  rw [show jwtDecode (Token.signed p SECRET_KEY ALGORITHM) SECRET_KEY ALGORITHM now =
        Except.ok p from jwtDecode_encode p now h]

/-- C8: confirmation redemption is idempotent — redeeming a valid,
unexpired confirmation token twice for an existing account succeeds both
times (with a message, not an error); after the first redemption the
account's confirmed flag is true, after the second it is still true, and
the second redemption does not change the directory. -/
theorem C8_confirmation_idempotent (u : User) (db : List User) (t0 t1 t2 : Nat)
    (hu : repository_users.get_user_by_email u.email db = some u)
    (h1 : t1 ≤ t0 + 7 * 24 * 60 * 60) (h2 : t2 ≤ t0 + 7 * 24 * 60 * 60) :
    ∃ msg1 db1 msg2,
      routes.confirmed_email (Auth.create_email_token ⟨some (some u.email)⟩ t0) db t1 =
        (Except.ok msg1, db1) ∧
      (∃ v, repository_users.get_user_by_email u.email db1 = some v ∧ v.confirmed = true) ∧
      routes.confirmed_email (Auth.create_email_token ⟨some (some u.email)⟩ t0) db1 t2 =
        (Except.ok msg2, db1) := by
  have hred1 : Auth.get_email_from_token (Auth.create_email_token ⟨some (some u.email)⟩ t0) t1 =
      Except.ok (some u.email) :=
    get_email_from_token_signed ⟨some (some u.email), none, t0, t0 + 7 * 24 * 60 * 60⟩ t1 h1
  have hred2 : Auth.get_email_from_token (Auth.create_email_token ⟨some (some u.email)⟩ t0) t2 =
      Except.ok (some u.email) :=
    get_email_from_token_signed ⟨some (some u.email), none, t0, t0 + 7 * 24 * 60 * 60⟩ t2 h2
  cases hconf : u.confirmed with
  | true =>
    refine ⟨"Your email is already confirmed", db, "Your email is already confirmed", ?_, ?_, ?_⟩
    · simp [routes.confirmed_email, hred1, hu, hconf]
    · exact ⟨u, hu, hconf⟩
    · simp [routes.confirmed_email, hred2, hu, hconf]
  | false =>
    have hu1 : repository_users.get_user_by_email u.email
        (repository_users.confirmed_email u.email db) = some { u with confirmed := true } :=
      get_user_confirmed u.email u db hu
    refine ⟨"Email confirmed", repository_users.confirmed_email u.email db,
      "Your email is already confirmed", ?_, ?_, ?_⟩
    · simp [routes.confirmed_email, hred1, hu, hconf]
    · exact ⟨{ u with confirmed := true }, hu1, rfl⟩
    · simp [routes.confirmed_email, hred2, hu1]

/-- Witness for C8: an unconfirmed account, token issued at time 0,
redeemed at times 5 and 6. -/
theorem C8_confirmation_idempotent_witness :
    ∃ msg1 db1 msg2,
      routes.confirmed_email
          (Auth.create_email_token ⟨some (some "b@x.com")⟩ 0)
          [⟨"bob", "b@x.com", "pw", false, none⟩] 5 =
        (Except.ok msg1, db1) ∧
      (∃ v, repository_users.get_user_by_email "b@x.com" db1 = some v ∧ v.confirmed = true) ∧
      routes.confirmed_email
          (Auth.create_email_token ⟨some (some "b@x.com")⟩ 0) db1 6 =
        (Except.ok msg2, db1) :=
  C8_confirmation_idempotent ⟨"bob", "b@x.com", "pw", false, none⟩
    [⟨"bob", "b@x.com", "pw", false, none⟩] 0 5 6 (by decide) (by decide) (by decide)

/-- C3: refresh-token rotation — starting from an account whose stored
refresh token is a decodable token `rt1`, a first `refresh(rt1)` succeeds
and stores the newly issued refresh token; a second `refresh(rt1)` with
the superseded token then fails with 401 `Invalid refresh token`, after
which the account's stored refresh token is null. -/
theorem C3_refresh_rotation (u : User) (db : List User) (e : String)
    (rt1 : Token) (t2 t3 : Nat)
    (hd2 : Auth.decode_refresh_token rt1 t2 = Except.ok (some e))
    (hd3 : Auth.decode_refresh_token rt1 t3 = Except.ok (some e))
    (hu : repository_users.get_user_by_email e db = some u)
    (hstored : u.refresh_token = some rt1)
    (hnew : rt1 ≠ Auth.create_refresh_token ⟨some (some e)⟩ none t2) :
    ∃ db1 db2,
      routes.refresh_token rt1 db t2 =
        (Except.ok ⟨Auth.create_access_token ⟨some (some e)⟩ none t2,
            Auth.create_refresh_token ⟨some (some e)⟩ none t2⟩, db1) ∧
      routes.refresh_token rt1 db1 t3 =
        (Except.error (Fail.http 401 "Invalid refresh token"), db2) ∧
      repository_users.get_user_by_email e db2 = some { u with refresh_token := none } := by
  have hu1 : repository_users.get_user_by_email e
      (repository_users.update_token u
        (some (Auth.create_refresh_token ⟨some (some e)⟩ none t2)) db) =
      some { u with refresh_token := some (Auth.create_refresh_token ⟨some (some e)⟩ none t2) } :=
    get_user_update_token e u _ db hu
  refine ⟨repository_users.update_token u
      (some (Auth.create_refresh_token ⟨some (some e)⟩ none t2)) db,
    repository_users.update_token
      { u with refresh_token := some (Auth.create_refresh_token ⟨some (some e)⟩ none t2) } none
      (repository_users.update_token u
        (some (Auth.create_refresh_token ⟨some (some e)⟩ none t2)) db),
    ?_, ?_, ?_⟩
  · simp [routes.refresh_token, hd2, hu, hstored]
  · have hne2 : Auth.create_refresh_token ⟨some (some e)⟩ none t2 ≠ rt1 :=
      fun h => hnew h.symm
    simp [routes.refresh_token, hd3, hu1, hne2]
  · have hu2 := get_user_update_token e
      { u with refresh_token := some (Auth.create_refresh_token ⟨some (some e)⟩ none t2) }
      none _ hu1
    simpa using hu2

/-- Witness for C3: one account storing a refresh token issued at time 0,
refreshed at times 10 and 20. -/
theorem C3_refresh_rotation_witness :
    ∃ db1 db2,
      routes.refresh_token (Auth.create_refresh_token ⟨some (some "a@x.com")⟩ none 0)
          [⟨"alice", "a@x.com", "pw", true,
            some (Auth.create_refresh_token ⟨some (some "a@x.com")⟩ none 0)⟩] 10 =
        (Except.ok ⟨Auth.create_access_token ⟨some (some "a@x.com")⟩ none 10,
            Auth.create_refresh_token ⟨some (some "a@x.com")⟩ none 10⟩, db1) ∧
      routes.refresh_token (Auth.create_refresh_token ⟨some (some "a@x.com")⟩ none 0) db1 20 =
        (Except.error (Fail.http 401 "Invalid refresh token"), db2) ∧
      repository_users.get_user_by_email "a@x.com" db2 =
        some ⟨"alice", "a@x.com", "pw", true, none⟩ :=
  C3_refresh_rotation
    ⟨"alice", "a@x.com", "pw", true,
      some (Auth.create_refresh_token ⟨some (some "a@x.com")⟩ none 0)⟩
    [⟨"alice", "a@x.com", "pw", true,
      some (Auth.create_refresh_token ⟨some (some "a@x.com")⟩ none 0)⟩]
    "a@x.com" (Auth.create_refresh_token ⟨some (some "a@x.com")⟩ none 0) 10 20
    rfl rfl (by decide) rfl (by decide)

/-- C1 counterexample: a token carrying the access scope — not a
confirmation token — presented to email-confirmation redemption is
accepted, and its subject email returned, rather than rejected. -/
theorem C1_counterexample :
    Auth.get_email_from_token
        (Auth.create_access_token ⟨some (some "u@x.com")⟩ none 0) 0 =
      Except.ok (some "u@x.com") := rfl

/-- C1 amended: `get_current_user` and `decode_refresh_token` never accept
a token whose scope claim differs from the one they require (however the
token is signed), but `get_email_from_token` performs no scope check at
all: any token validly signed under the configured secret and algorithm,
unexpired and carrying a subject claim is accepted there, whatever its
scope. -/
theorem C1_scope_matching_amended (p : Payload) (k a : String) (db : List User) (now : Nat) :
    (p.scope ≠ some accessScope →
      ∀ u, Auth.get_current_user (Token.signed p k a) db now ≠ Except.ok u) ∧
    (p.scope ≠ some refreshScope →
      ∀ s, Auth.decode_refresh_token (Token.signed p k a) now ≠ Except.ok s) ∧
    (∀ s, p.sub = some s → now ≤ p.exp →
      Auth.get_email_from_token (Token.signed p SECRET_KEY ALGORITHM) now = Except.ok s) := by
  refine ⟨?_, ?_, ?_⟩
  · intro hsc u h
    obtain ⟨pl, em, htok, hs, -, -, -⟩ := get_current_user_ok _ _ _ _ h
    injection htok with h1 h2 h3
    subst h1
    exact hsc hs
  · intro hsc s h
    obtain ⟨pl, htok, hs, -, -⟩ := decode_refresh_token_ok _ _ _ h
    injection htok with h1 h2 h3
    subst h1
    exact hsc hs
  · intro s hsub hexp
    rw [get_email_from_token_signed p now hexp, hsub]

/-- Witness for C1 amended: a scopeless confirmation-style token is never
accepted by access or refresh verification, and a refresh-scoped token is
accepted by confirmation redemption. -/
theorem C1_scope_matching_amended_witness :
    (Auth.get_current_user
        (Token.signed ⟨some (some "u@x.com"), none, 0, 604800⟩ SECRET_KEY ALGORITHM) [] 0 ≠
      Except.ok ⟨"alice", "a@x.com", "pw", true, none⟩) ∧
    (Auth.decode_refresh_token
        (Token.signed ⟨some (some "u@x.com"), none, 0, 604800⟩ SECRET_KEY ALGORITHM) 0 ≠
      Except.ok (some "u@x.com")) ∧
    (Auth.get_email_from_token
        (Token.signed ⟨some (some "u@x.com"), some refreshScope, 0, 604800⟩
          SECRET_KEY ALGORITHM) 5 =
      Except.ok (some "u@x.com")) :=
  ⟨(C1_scope_matching_amended ⟨some (some "u@x.com"), none, 0, 604800⟩
      SECRET_KEY ALGORITHM [] 0).1 (by simp) ⟨"alice", "a@x.com", "pw", true, none⟩,
    (C1_scope_matching_amended ⟨some (some "u@x.com"), none, 0, 604800⟩
      SECRET_KEY ALGORITHM [] 0).2.1 (by simp) (some "u@x.com"),
    (C1_scope_matching_amended ⟨some (some "u@x.com"), some refreshScope, 0, 604800⟩
      SECRET_KEY ALGORITHM [] 5).2.2 (some "u@x.com") rfl (by decide)⟩

/-- C9: evaluation of the code at the claim's inputs — `request_email`
with an unknown email, `refresh` with a valid refresh token whose subject
account is gone, and `get_current_user` with a validly signed token
lacking a scope claim each escape with an unhandled Python exception
instead of a per-request rejection. -/
theorem C9_unhandled_exceptions :
    routes.request_email "ghost@x.com" [] = Except.error (Fail.uncaught "AttributeError") ∧
    routes.refresh_token (Auth.create_refresh_token ⟨some (some "gone@x.com")⟩ none 0) [] 5 =
      (Except.error (Fail.uncaught "AttributeError"), []) ∧
    Auth.get_current_user
        (Token.signed ⟨some (some "u@x.com"), none, 0, 3600⟩ SECRET_KEY ALGORITHM) [] 0 =
      Except.error (Fail.uncaught "KeyError") :=
  ⟨rfl, rfl, rfl⟩

/-- C7: assuming the external bcrypt context satisfies its documented
contract on schema-valid passwords (6–25 characters, well inside bcrypt's
72-byte domain), the repository's wrappers verify a password against its
own hash and reject it against any other password's hash. -/
theorem C7_hash_verify_round_trip (pwd_context : CryptContext)
    (hround : ∀ p, validPassword p →
      pwd_context.verify p (pwd_context.hash p) = true)
    (hdiff : ∀ p q, validPassword p → validPassword q → p ≠ q →
      pwd_context.verify p (pwd_context.hash q) = false)
    (p q : String) (hp : validPassword p) (hq : validPassword q) (hne : p ≠ q) :
    Auth.verify_password pwd_context p (Auth.get_password_hash pwd_context p) = true ∧
    Auth.verify_password pwd_context p (Auth.get_password_hash pwd_context q) = false :=
  ⟨hround p hp, hdiff p q hp hq hne⟩

/-- A concrete context satisfying the hasher contract hypotheses, for the
C7 witness. -/
def plainCtx : CryptContext :=
  ⟨fun s => s, fun s h => s == h⟩

/-- Witness for C7 at two concrete schema-valid passwords. -/
theorem C7_hash_verify_round_trip_witness :
    Auth.verify_password plainCtx "secret1" (Auth.get_password_hash plainCtx "secret1") = true ∧
    Auth.verify_password plainCtx "secret1" (Auth.get_password_hash plainCtx "secret2") = false :=
  C7_hash_verify_round_trip plainCtx
    (fun p _ => beq_self_eq_true p)
    (fun p q _ _ h => beq_eq_false_iff_ne.mpr h)
    "secret1" "secret2" (by decide) (by decide) (by decide)

/-- Witness for C2 amended: a well-signed, unexpired access token is
rejected by refresh verification with `Invalid scope for token` and never
accepted. -/
theorem C2_access_token_never_refreshes_witness :
    (Auth.decode_refresh_token
        (Token.signed ⟨some (some "u@x.com"), some accessScope, 0, 3600⟩
          SECRET_KEY ALGORITHM) 10 ≠ Except.ok (some "u@x.com")) ∧
    (Auth.decode_refresh_token
        (Token.signed ⟨some (some "u@x.com"), some accessScope, 0, 3600⟩
          SECRET_KEY ALGORITHM) 10 =
      Except.error (Fail.http 401 "Invalid scope for token")) :=
  ⟨(C2_access_token_never_refreshes ⟨some (some "u@x.com"), some accessScope, 0, 3600⟩
      SECRET_KEY ALGORITHM 10 rfl).1 (some "u@x.com"),
    (C2_access_token_never_refreshes ⟨some (some "u@x.com"), some accessScope, 0, 3600⟩
      SECRET_KEY ALGORITHM 10 rfl).2 rfl rfl (by decide)⟩

/-- Evaluation of `get_current_user` on a token validly signed under the
configured secret and algorithm and not yet expired. -/
theorem get_current_user_signed (p : Payload) (db : List User) (now : Nat) (h : now ≤ p.exp) :
    Auth.get_current_user (Token.signed p SECRET_KEY ALGORITHM) db now =
      (match p.scope with
       | none => Except.error (Fail.uncaught "KeyError")
       | some s =>
         if s = accessScope then
           match p.sub with
           | none => Except.error (Fail.uncaught "KeyError")
           | some none => Except.error (Fail.http 401 "Could not validate credentials")
           | some (some email) =>
             match repository_users.get_user_by_email email db with
             | none => Except.error (Fail.http 401 "Could not validate credentials")
             | some user => Except.ok user
         else Except.error (Fail.http 401 "Could not validate credentials")) := by
  unfold Auth.get_current_user
  rw [show jwtDecode (Token.signed p SECRET_KEY ALGORITHM) SECRET_KEY ALGORITHM now =
        Except.ok p from jwtDecode_encode p now h]

/-- C4 counterexample: two failing inputs to `get_current_user` with
different observable results — a malformed token gets the generic 401,
while a validly signed access-scoped token whose payload lacks the `sub`
key escapes with an uncaught `KeyError` (the `except JWTError` handler
does not catch the subscript failure), so the failure outcomes are not all
indistinguishable. -/
theorem C4_counterexample :
    Auth.get_current_user (Token.malformed "garbage") [] 0 =
      Except.error (Fail.http 401 "Could not validate credentials") ∧
    Auth.get_current_user
        (Token.signed ⟨none, some accessScope, 0, 3600⟩ SECRET_KEY ALGORITHM) [] 0 =
      Except.error (Fail.uncaught "KeyError") ∧
    (Fail.http 401 "Could not validate credentials" ≠ Fail.uncaught "KeyError") :=
  ⟨rfl, rfl, by decide⟩

/-- The inputs on which `get_current_user`'s handler misses: a token
validly signed under the configured secret and algorithm, unexpired, whose
payload lacks the `scope` key, or carries the access scope but lacks the
`sub` key; subscripting the decoded dict then raises `KeyError`, which
`except JWTError` does not catch. -/
def keyErrorInput (tok : Token) (now : Nat) : Bool :=
  match tok with
  | Token.malformed _ => false
  | Token.signed p k a =>
    k == SECRET_KEY && a == ALGORITHM && decide (now ≤ p.exp) &&
      (p.scope == none || (p.scope == some accessScope && p.sub == none))

/-- C4 amended: every failing input to `get_current_user` outside the
uncaught-`KeyError` class (tokens that decode but lack the `scope` key, or
carry the access scope without a `sub` key) produces the one
indistinguishable 401 `Could not validate credentials`; inputs in that
class always escape with the uncaught `KeyError` instead. -/
theorem C4_uniform_unauthorized (tok : Token) (db : List User) (now : Nat) :
    (keyErrorInput tok now = true →
      Auth.get_current_user tok db now = Except.error (Fail.uncaught "KeyError")) ∧
    (keyErrorInput tok now = false →
      ∀ r, Auth.get_current_user tok db now = Except.error r →
        r = Fail.http 401 "Could not validate credentials") := by
  constructor
  · intro hke
    cases tok with
    | malformed s => simp [keyErrorInput] at hke
    | signed p k a =>
      simp only [keyErrorInput, Bool.and_eq_true, Bool.or_eq_true, beq_iff_eq,
        decide_eq_true_eq] at hke
      obtain ⟨⟨⟨hk, ha⟩, hexp⟩, hmiss⟩ := hke
      subst hk
      subst ha
      rw [get_current_user_signed p db now hexp]
      rcases hmiss with hsc | ⟨hsc, hsub⟩
      · rw [hsc]
      · rw [hsc]
        simp [hsub]
  · intro hke r h
    cases tok with
    | malformed s =>
      rw [show Auth.get_current_user (Token.malformed s) db now =
            Except.error (Fail.http 401 "Could not validate credentials") from rfl] at h
      injection h with h
      exact h.symm
    | signed p k a =>
      by_cases hka : k = SECRET_KEY ∧ a = ALGORITHM
      · obtain ⟨hk, ha⟩ := hka
        subst hk
        subst ha
        by_cases hexp : p.exp < now
        · rw [show Auth.get_current_user (Token.signed p SECRET_KEY ALGORITHM) db now =
                Except.error (Fail.http 401 "Could not validate credentials") by
              unfold Auth.get_current_user
              rw [show jwtDecode (Token.signed p SECRET_KEY ALGORITHM) SECRET_KEY ALGORITHM
                    now = Except.error JWTError.expired by
                  simp [jwtDecode, hexp]]] at h
          injection h with h
          exact h.symm
        · have hexp2 : now ≤ p.exp := Nat.le_of_not_lt hexp
          simp only [keyErrorInput, Bool.and_eq_true, Bool.or_eq_true, beq_iff_eq,
            decide_eq_true_eq, beq_self_eq_true, true_and, Bool.and_eq_false_iff,
            Bool.or_eq_false_iff] at hke
          rw [get_current_user_signed p db now hexp2] at h
          rcases hke with hke | hke
          · rcases hke with hke | hke
            · simp at hke
            · exact absurd hexp2 (by simpa using hke)
          · obtain ⟨hsc, hsub⟩ := hke
            split at h
            · rename_i hscope
              rw [hscope] at hsc
              simp at hsc
            · rename_i s hscope
              split at h
              · rename_i hs
                split at h
                · rename_i hsubv
                  rcases hsub with hsub | hsub
                  · rw [hscope, hs] at hsub
                    simp at hsub
                  · rw [hsubv] at hsub
                    simp at hsub
                · injection h with h
                  exact h.symm
                · rename_i email hsubv
                  split at h
                  · injection h with h
                    exact h.symm
                  · simp at h
              · injection h with h
                exact h.symm
      · rw [show Auth.get_current_user (Token.signed p k a) db now =
              Except.error (Fail.http 401 "Could not validate credentials") by
            unfold Auth.get_current_user
            rw [show jwtDecode (Token.signed p k a) SECRET_KEY ALGORITHM now =
                  Except.error JWTError.badToken by simp [jwtDecode, hka]]] at h
        injection h with h
        exact h.symm

/-- Witness for C4 amended: a scope-less signed token escapes with the
uncaught `KeyError`; a malformed token fails with the generic 401. -/
theorem C4_uniform_unauthorized_witness :
    (Auth.get_current_user (Token.signed ⟨some (some "u@x.com"), none, 0, 100⟩
        SECRET_KEY ALGORITHM) [] 0 = Except.error (Fail.uncaught "KeyError")) ∧
    ((Fail.http 401 "Could not validate credentials" : Fail) =
      Fail.http 401 "Could not validate credentials") :=
  ⟨(C4_uniform_unauthorized (Token.signed ⟨some (some "u@x.com"), none, 0, 100⟩
      SECRET_KEY ALGORITHM) [] 0).1 (by decide),
    (C4_uniform_unauthorized (Token.malformed "zzz") [] 0).2 (by decide)
      (Fail.http 401 "Could not validate credentials") rfl⟩

end HW13
